import Mathlib

/-
Shallow embedding of the price-shield pipeline core (src/src/nodes.py and
src/src/state.py).  The three node functions are modelled as pure Lean
functions; every call that leaves the repository (agent construction plus
invocation, structured-extraction LLM calls, the report-rendering LLM call)
is an explicit oracle argument.  An oracle either returns a value or raises
an exception carrying its message, mirroring the try/except structure of the
source.  Python floats are modelled as exact rationals.
-/

namespace PriceShield

/-- Outcome of one external call: a returned value, or a raised exception
with the text of `str(e)`. -/
inductive ExternalResult (α : Type) where
  | ok : α → ExternalResult α
  | exn : String → ExternalResult α
  deriving DecidableEq

/-- Pydantic model `ProductURLs` in nodes.py: one optional URL field per
platform, in field-declaration order amazon, walmart, bestbuy. -/
structure ProductURLs where
  amazon : Option String
  walmart : Option String
  bestbuy : Option String
  deriving DecidableEq

/-- Pydantic model `ExtractedPrice` in nodes.py: optional numeric price,
title (default empty), availability (default "Unknown"). -/
structure ExtractedPrice where
  price : Option ℚ
  title : String
  availability : String
  deriving DecidableEq

/-- One element of `price_data`.  The success branch of the extraction loop
never writes an `error` key, modelled as `error = none`. -/
structure PriceRecord where
  platform : String
  price : Option ℚ
  title : String
  url : String
  availability : String
  error : Option String
  deriving DecidableEq

/-- `InsuranceState` from src/src/state.py.  `search_results` is a Python
dict from platform to URL; dicts preserve insertion order, so it is modelled
as an association list. -/
structure InsuranceState where
  product_query : String
  search_results : List (String × String)
  price_data : List PriceRecord
  final_report : String
  error : Option String
  confidence_score : Option ℚ
  deriving DecidableEq

/-- The items of the `ProductURLs` record as a Python dict would iterate
them: field-declaration order, values still optional. -/
def dictItems (r : ProductURLs) : List (String × Option String) :=
  [("amazon", r.amazon), ("walmart", r.walmart), ("bestbuy", r.bestbuy)]

/-- The dict comprehension in `search_products`: keep an item per field whose
value is not None. -/
def urlsToList (r : ProductURLs) : List (String × String) :=
  (dictItems r).filterMap (fun kv => kv.2.map (fun v => (kv.1, v)))

/-- Node 1, `search_products`.  Everything inside the try block up to the
structured-extraction call is external work, abstracted by `agentSearch`;
on success the parsed `ProductURLs` record is filtered and assigned, on any
exception `search_results` becomes empty and `error` is set. -/
def search_products (state : InsuranceState)
    (agentSearch : ExternalResult ProductURLs) : InsuranceState :=
  match agentSearch with
  | .ok urls => { state with search_results := urlsToList urls }
  | .exn e =>
      { state with
          search_results := []
          error := some ("Product search failed: " ++ e) }

/-- The two append branches of the per-platform loop in `extract_prices`:
the inner try yields a success record copying the structured output, the
inner except yields the fixed failure record. -/
def extractRecord (fetch : String → String → ExternalResult ExtractedPrice)
    (pu : String × String) : PriceRecord :=
  match fetch pu.1 pu.2 with
  | .ok d =>
      { platform := pu.1, price := d.price, title := d.title, url := pu.2
        availability := d.availability, error := none }
  | .exn e =>
      { platform := pu.1, price := none, title := "", url := pu.2
        availability := "Error extracting", error := some e }

/-- Node 2, `extract_prices`.  `setup` abstracts agent and tool construction
(the part of the try block before the loop); `fetch` abstracts the agent
invocation plus structured extraction for one (platform, url) pair. -/
def extract_prices (state : InsuranceState) (setup : ExternalResult Unit)
    (fetch : String → String → ExternalResult ExtractedPrice) : InsuranceState :=
  if state.search_results.isEmpty then
    { state with
        price_data := []
        error := some "No product URLs found to extract prices from" }
  else
    match setup with
    | .exn e =>
        { state with
            price_data := []
            error := some ("Price extraction failed: " ++ e) }
    | .ok _ =>
        { state with
            price_data := state.search_results.map (extractRecord fetch) }

/-- The list comprehension in `generate_report`: the prices of the entries
whose price is not None. -/
def validPrices (pd : List PriceRecord) : List ℚ :=
  pd.filterMap (fun item => item.price)

/-- Insert into a sorted list, used to model `sorted(data)` inside
`statistics.median`. -/
def insertSorted (x : ℚ) : List ℚ → List ℚ
  | [] => [x]
  | y :: ys => if x ≤ y then x :: y :: ys else y :: insertSorted x ys

/-- Ascending sort of a list of rationals. -/
def sortQ (l : List ℚ) : List ℚ :=
  l.foldr insertSorted []

/-- `statistics.median`: sort, take the middle element for odd length, the
average of the two middle elements for even length.  The source never calls
it on an empty list; the 0 default of `getD` is unreachable in that use. -/
def median (l : List ℚ) : ℚ :=
  let s := sortQ l
  let n := l.length
  if n % 2 = 1 then s.getD (n / 2) 0
  else (s.getD (n / 2 - 1) 0 + s.getD (n / 2) 0) / 2

/-- `statistics.mean`: sum divided by length. -/
def mean (l : List ℚ) : ℚ :=
  l.sum / (l.length : ℚ)

/-- Python `min` over a non-empty list (0 for the unreachable empty case). -/
def listMin : List ℚ → ℚ
  | [] => 0
  | x :: xs => xs.foldl min x

/-- Python `max` over a non-empty list (0 for the unreachable empty case). -/
def listMax : List ℚ → ℚ
  | [] => 0
  | x :: xs => xs.foldl max x

/-- Python `str.title()` on one character stream: an alphabetic character is
uppercased after a non-alphabetic one and lowercased otherwise. -/
def pyTitleAux : Bool → List Char → List Char
  | _, [] => []
  | prevAlpha, c :: cs =>
      (if c.isAlpha then (if prevAlpha then c.toLower else c.toUpper) else c)
        :: pyTitleAux c.isAlpha cs

/-- Python `str.title()`. -/
def pyTitle (s : String) : String :=
  ⟨pyTitleAux false s.data⟩

/-- Fixed two-decimal rendering of a price, modelling the `.2f` format used
in the breakdown lines. -/
def formatPrice (p : ℚ) : String :=
  let cents : Int := round (p * 100)
  let sign := if cents < 0 then "-" else ""
  let n := cents.natAbs
  let fracDigits := n % 100
  let fracStr :=
    if fracDigits < 10 then "0" ++ toString fracDigits else toString fracDigits
  sign ++ toString (n / 100) ++ "." ++ fracStr

/-- One line of the platform breakdown in `generate_report`.  The source
tests Python truthiness of the price, so a price of 0.0 (like a missing
price) takes the "No price found" branch. -/
def breakdownLine (item : PriceRecord) : String :=
  match item.price with
  | some p =>
      if p ≠ 0 then
        "• " ++ pyTitle item.platform ++ ": $" ++ formatPrice p ++ " - "
          ++ item.title ++ "\n"
      else "• " ++ pyTitle item.platform ++ ": No price found\n"
  | none => "• " ++ pyTitle item.platform ++ ": No price found\n"

/-- The `platform_text` accumulation loop over the original `price_data`. -/
def platformText (pd : List PriceRecord) : String :=
  pd.foldl (fun acc item => acc ++ breakdownLine item) ""

/-- The data `generate_report` computes and submits to the rendering LLM
call: the four statistics, the confidence score and the breakdown text. -/
structure ReportStats where
  median_price : ℚ
  average_price : ℚ
  min_price : ℚ
  max_price : ℚ
  confidence : ℚ
  platform_text : String
  deriving DecidableEq

/-- The local variables `median_price`, `average_price`, `min_price`,
`max_price`, `confidence_score` and `platform_text` computed on the
non-short-circuit path of `generate_report`, bundled as the data submitted
to the rendering call. -/
def reportStats (pd : List PriceRecord) : ReportStats :=
  let valid_prices := validPrices pd
  { median_price := median valid_prices
    average_price := mean valid_prices
    min_price := listMin valid_prices
    max_price := listMax valid_prices
    confidence := min 10 ((valid_prices.length : ℚ) / 3 * 8 + 2)
    platform_text := platformText pd }

/-- Node 3, `generate_report`.  `render` abstracts the prompt-template plus
LLM rendering call; its verbatim output becomes `final_report`. -/
def generate_report (state : InsuranceState)
    (render : ReportStats → String) : InsuranceState :=
  let valid_prices := validPrices state.price_data
  if valid_prices.isEmpty then
    { state with
        final_report := "❌ No prices found for " ++ state.product_query
        confidence_score := some 0 }
  else
    { state with
        final_report := render (reportStats state.price_data)
        confidence_score := some (reportStats state.price_data).confidence }

/-- The invariant asserted by the specification for extraction records:
either the price is a positive numeric value and no error field is carried,
or the price is null and either the availability indicates an extraction
failure or the error field is present.  Transcribed from the spec wording,
for comparison with what the code produces. -/
def claimedRecordInvariant (r : PriceRecord) : Bool :=
  match r.price with
  | some p => decide (0 < p) && r.error.isNone
  | none => (r.availability == "Error extracting") || r.error.isSome

/-- The mock `price_data` from `test_generate_report` in src/test.py. -/
def mockPriceData : List PriceRecord :=
  [{ platform := "amazon", price := some 1299.99,
     title := "LG 55\" OLED C4 Series 4K TV",
     url := "https://amazon.com/...", availability := "In Stock", error := none },
   { platform := "walmart", price := some 1199.99,
     title := "LG 55\" 4K UHD Smart TV",
     url := "https://walmart.com/...", availability := "In Stock", error := none },
   { platform := "bestbuy", price := some 1349.99,
     title := "LG 55\" B4 Series OLED TV",
     url := "https://bestbuy.com/...", availability := "Available", error := none }]

/-- The mock state from `test_generate_report` in src/test.py. -/
def mockState : InsuranceState :=
  { product_query := "LG 55\" TV", search_results := [],
    price_data := mockPriceData, final_report := "", error := none,
    confidence_score := none }

/-- The statistics `generate_report` computes on the mock data. -/
def mockStats : ReportStats :=
  { median_price := 1299.99, average_price := 384997 / 300,
    min_price := 1199.99, max_price := 1349.99, confidence := 10,
    platform_text := platformText mockPriceData }

/-- A state in which an earlier step already recorded a step-wide error and,
as that earlier step also does, emptied `search_results`. -/
def erroredState : InsuranceState :=
  { product_query := "iPhone 16 256GB", search_results := [], price_data := [],
    final_report := "", error := some "Product search failed: boom",
    confidence_score := none }

/-- A fetch oracle that raises for every platform. -/
def failFetch : String → String → ExternalResult ExtractedPrice :=
  fun _ _ => .exn "network error"

/-- A state holding a single resolved URL. -/
def zeroPriceFetchState : InsuranceState :=
  { product_query := "LG 55\" TV",
    search_results := [("amazon", "https://amazon.com/item")],
    price_data := [], final_report := "", error := none,
    confidence_score := none }

/-- A fetch oracle whose structured extraction returns a price of zero with
an availability that does not indicate failure. -/
def zeroPriceFetch : String → String → ExternalResult ExtractedPrice :=
  fun _ _ => .ok { price := some 0, title := "LG TV", availability := "In Stock" }

/-- The record `extract_prices` appends for `zeroPriceFetch`. -/
def badZeroRecord : PriceRecord :=
  { platform := "amazon", price := some 0, title := "LG TV",
    url := "https://amazon.com/item", availability := "In Stock", error := none }

/-- A state with exactly one valid extracted price. -/
def singleValidState : InsuranceState :=
  { product_query := "MacBook Air M2", search_results := [],
    price_data := [{ platform := "amazon", price := some 999.99,
                     title := "MacBook Air", url := "https://amazon.com/mba",
                     availability := "In Stock", error := none }],
    final_report := "", error := none, confidence_score := none }

/-- A state with two resolved URLs. -/
def twoUrlState : InsuranceState :=
  { product_query := "iPhone 16 256GB",
    search_results := [("amazon", "uA"), ("walmart", "uW")],
    price_data := [], final_report := "", error := none,
    confidence_score := none }

/-- A fetch oracle that succeeds on amazon and raises on every other
platform. -/
def mixedFetch : String → String → ExternalResult ExtractedPrice :=
  fun p _ =>
    if p = "amazon" then
      .ok { price := some 799.99, title := "iPhone 16", availability := "In Stock" }
    else .exn "tool call failed"

/-- A state whose `search_results` mapping is empty. -/
def emptySearchState : InsuranceState :=
  { product_query := "Samsung Galaxy S24", search_results := [],
    price_data := [], final_report := "", error := none,
    confidence_score := none }

/-- A state whose only extraction record carries a null price. -/
def allNullState : InsuranceState :=
  { product_query := "iPhone 16 256GB", search_results := [],
    price_data := [{ platform := "amazon", price := none, title := "",
                     url := "uA", availability := "Error extracting",
                     error := some "timeout" }],
    final_report := "", error := none, confidence_score := none }

/-- An extraction record whose price is exactly zero. -/
def zeroWalmartRecord : PriceRecord :=
  { platform := "walmart", price := some 0, title := "",
    url := "https://walmart.com/x", availability := "In Stock", error := none }

/-- A state whose `price_data` holds `zeroWalmartRecord`. -/
def zeroPriceState : InsuranceState :=
  { product_query := "TV", search_results := [],
    price_data := [zeroWalmartRecord], final_report := "", error := none,
    confidence_score := none }

/-- A non-empty list is not `isEmpty`. -/
theorem isEmpty_false_of_ne_nil {α : Type} {l : List α} (h : l ≠ []) :
    l.isEmpty = false := by
  cases hv : l with
  | nil => exact absurd hv h
  | cons a t => rfl

/-- The platform of the record appended for a pair is the pair's key,
whichever branch of the inner try was taken. -/
theorem extractRecord_platform
    (fetch : String → String → ExternalResult ExtractedPrice)
    (pu : String × String) : (extractRecord fetch pu).platform = pu.1 := by
  cases hf : fetch pu.1 pu.2 <;> simp [extractRecord, hf]

/-- Claim C6: for every exception raised inside `search_products`, the step
returns the state with the error message prefixed by "Product search
failed: " and `search_results` reset to the empty mapping, so no partial
platform results survive the exception. -/
theorem C6_search_exception_total_failure (s : InsuranceState) (e : String) :
    search_products s (.exn e)
      = { s with
            search_results := []
            error := some ("Product search failed: " ++ e) } := rfl

/-- Claim C8: on a successful run, `search_products` keeps exactly the
fields of the structured URL record whose URL is non-null, in field order,
dropping null fields entirely; in particular a record with only an amazon
URL yields a single amazon entry. -/
theorem C8_null_urls_dropped (s : InsuranceState) (rec : ProductURLs)
    (u : String) :
    ((search_products s (.ok rec)).search_results
        = (match rec.amazon with | some a => [("amazon", a)] | none => [])
          ++ (match rec.walmart with | some w => [("walmart", w)] | none => [])
          ++ (match rec.bestbuy with | some b => [("bestbuy", b)] | none => []))
    ∧ (search_products s
        (.ok { amazon := some u, walmart := none, bestbuy := none })).search_results
        = [("amazon", u)] := by
  refine ⟨?_, rfl⟩
  obtain ⟨a, w, b⟩ := rec
  cases a <;> cases w <;> cases b <;> rfl

/-- Claim C5: for every state with an empty `search_results` mapping,
`extract_prices` returns immediately with empty `price_data` and the fixed
error message, and the result does not depend on the agent-construction or
fetch oracles (no external agent or tool is constructed or invoked). -/
theorem C5_empty_search_returns_error (s : InsuranceState)
    (setup setup2 : ExternalResult Unit)
    (fetch fetch2 : String → String → ExternalResult ExtractedPrice)
    (h : s.search_results = []) :
    extract_prices s setup fetch
      = { s with
            price_data := []
            error := some "No product URLs found to extract prices from" }
    ∧ extract_prices s setup fetch = extract_prices s setup2 fetch2 := by
  have hv : s.search_results.isEmpty = true := by rw [h]; rfl
  constructor <;> simp [extract_prices, hv]

theorem C5_empty_search_returns_error_witness :
    extract_prices emptySearchState (.ok ()) failFetch
      = { emptySearchState with
            price_data := []
            error := some "No product URLs found to extract prices from" }
    ∧ extract_prices emptySearchState (.ok ()) failFetch
      = extract_prices emptySearchState (.exn "boom") zeroPriceFetch :=
  C5_empty_search_returns_error emptySearchState (.ok ()) (.exn "boom")
    failFetch zeroPriceFetch rfl

/-- Claim C4: for every state whose `price_data` has no entry with a
non-null price, `generate_report` returns the fixed no-prices message
naming `product_query`, confidence score 0.0, and the result does not
depend on the rendering oracle (no LLM rendering call is made). -/
theorem C4_no_valid_prices_short_report (s : InsuranceState)
    (render render2 : ReportStats → String)
    (h : validPrices s.price_data = []) :
    generate_report s render
      = { s with
            final_report := "❌ No prices found for " ++ s.product_query
            confidence_score := some 0 }
    ∧ generate_report s render = generate_report s render2 := by
  have hv : (validPrices s.price_data).isEmpty = true := by rw [h]; rfl
  constructor <;> simp [generate_report, hv]

theorem C4_no_valid_prices_short_report_witness :
    generate_report allNullState (fun _ => "A")
      = { allNullState with
            final_report := "❌ No prices found for " ++ allNullState.product_query
            confidence_score := some 0 }
    ∧ generate_report allNullState (fun _ => "A")
      = generate_report allNullState (fun _ => "B") :=
  C4_no_valid_prices_short_report allNullState (fun _ => "A") (fun _ => "B")
    (by decide)

/-- Claim C1: whenever the valid-price list is non-empty (so step 3 computes
statistics), the confidence score is min(10, (L / 3) * 8 + 2) for L the
number of valid prices; L = 3 gives exactly 10 and L = 1 gives exactly
14 / 3 (the 4.667 of the spec). -/
theorem C1_confidence_formula (s : InsuranceState)
    (render : ReportStats → String) (h : validPrices s.price_data ≠ []) :
    (generate_report s render).confidence_score
      = some (min 10 (((validPrices s.price_data).length : ℚ) / 3 * 8 + 2))
    ∧ min 10 (((3 : ℚ)) / 3 * 8 + 2) = 10
    ∧ min 10 (((1 : ℚ)) / 3 * 8 + 2) = 14 / 3 := by
  have hv : (validPrices s.price_data).isEmpty = false := isEmpty_false_of_ne_nil h
  refine ⟨?_, ?_, ?_⟩
  · simp [generate_report, hv, reportStats]
  · have h3 : ((3 : ℚ)) / 3 * 8 + 2 = 10 := by norm_num
    rw [h3, min_self]
  · have h1 : ((1 : ℚ)) / 3 * 8 + 2 = 14 / 3 := by norm_num
    rw [h1]
    exact min_eq_right (by norm_num)

theorem C1_confidence_formula_witness :
    (generate_report singleValidState (fun _ => "")).confidence_score
      = some (min 10
          (((validPrices singleValidState.price_data).length : ℚ) / 3 * 8 + 2))
    ∧ min 10 (((3 : ℚ)) / 3 * 8 + 2) = 10
    ∧ min 10 (((1 : ℚ)) / 3 * 8 + 2) = 14 / 3 :=
  C1_confidence_formula singleValidState (fun _ => "") (by decide)

/-- Claim C2 fails on the code: neither later step inspects the error
field.  On a state carrying an error from a failed search (and the empty
`search_results` that failure leaves behind), `extract_prices` overwrites
the error with its own message and `generate_report` still produces a new
confidence score. -/
theorem C2_short_circuit_counterexample :
    (extract_prices erroredState (.ok ()) failFetch).error ≠ erroredState.error
    ∧ (generate_report erroredState (fun _ => "")).confidence_score
        ≠ erroredState.confidence_score := by decide

/-- Claim C2 amended: `extract_prices` and `generate_report` do not detect
the error field at all — their outputs are identical whatever value `error`
holds — and on a state whose `search_results` is empty (as left behind by a
failed search) `extract_prices` overwrites `error` with its no-URLs
message. -/
theorem C2_error_field_ignored (s : InsuranceState) (e : Option String)
    (setup : ExternalResult Unit)
    (fetch : String → String → ExternalResult ExtractedPrice)
    (render : ReportStats → String) :
    ((extract_prices { s with error := e } setup fetch).search_results
        = (extract_prices s setup fetch).search_results
      ∧ (extract_prices { s with error := e } setup fetch).price_data
        = (extract_prices s setup fetch).price_data)
    ∧ ((generate_report { s with error := e } render).final_report
        = (generate_report s render).final_report
      ∧ (generate_report { s with error := e } render).confidence_score
        = (generate_report s render).confidence_score)
    ∧ (s.search_results = [] →
        (extract_prices s setup fetch).error
          = some "No product URLs found to extract prices from") := by
  refine ⟨⟨?_, ?_⟩, ⟨?_, ?_⟩, fun h => ?_⟩
  · cases hsr : s.search_results.isEmpty <;> cases setup <;>
      simp [extract_prices, hsr]
  · cases hsr : s.search_results.isEmpty <;> cases setup <;>
      simp [extract_prices, hsr]
  · cases hv : (validPrices s.price_data).isEmpty <;>
      simp [generate_report, hv]
  · cases hv : (validPrices s.price_data).isEmpty <;>
      simp [generate_report, hv]
  · have hsr : s.search_results.isEmpty = true := by rw [h]; rfl
    simp [extract_prices, hsr]

theorem C2_error_field_ignored_witness :
    (extract_prices { erroredState with error := some "E" } (.ok ()) failFetch).price_data
      = (extract_prices erroredState (.ok ()) failFetch).price_data
    ∧ (generate_report { erroredState with error := some "E" } (fun _ => "")).confidence_score
      = (generate_report erroredState (fun _ => "")).confidence_score
    ∧ (extract_prices erroredState (.ok ()) failFetch).error
      = some "No product URLs found to extract prices from" := by
  have h := C2_error_field_ignored erroredState (some "E") (.ok ()) failFetch
    (fun _ => "")
  exact ⟨h.1.2, h.2.1.2, h.2.2 rfl⟩

/-- Claim C3: once the per-platform loop is reached (agent construction
succeeded), `extract_prices` produces exactly one record per key of
`search_results`, in iteration order, whatever the fetch oracle does — so
an exception on one platform never prevents the attempt on another. -/
theorem C3_one_record_per_key (s : InsuranceState)
    (fetch : String → String → ExternalResult ExtractedPrice)
    (h : s.search_results ≠ []) :
    (extract_prices s (.ok ()) fetch).price_data
        = s.search_results.map (extractRecord fetch)
    ∧ (extract_prices s (.ok ()) fetch).price_data.map (fun r => r.platform)
        = s.search_results.map (fun pu => pu.1) := by
  have hsr : s.search_results.isEmpty = false := isEmpty_false_of_ne_nil h
  have h1 : (extract_prices s (.ok ()) fetch).price_data
      = s.search_results.map (extractRecord fetch) := by
    simp [extract_prices, hsr]
  have hfun : ((fun r : PriceRecord => r.platform) ∘ extractRecord fetch)
      = fun pu : String × String => pu.1 :=
    funext fun pu => extractRecord_platform fetch pu
  exact ⟨h1, by rw [h1, List.map_map, hfun]⟩

theorem C3_one_record_per_key_witness :
    (extract_prices twoUrlState (.ok ()) mixedFetch).price_data
        = twoUrlState.search_results.map (extractRecord mixedFetch)
    ∧ (extract_prices twoUrlState (.ok ()) mixedFetch).price_data.map
        (fun r => r.platform)
        = twoUrlState.search_results.map (fun pu => pu.1) :=
  C3_one_record_per_key twoUrlState mixedFetch (by decide)

/-- Claim C7 fails on the code: when the structured extraction returns a
price of zero (not positive) with an ordinary availability, the appended
record has a non-positive price and no error field, violating the claimed
invariant. -/
theorem C7_invariant_counterexample :
    (extract_prices zeroPriceFetchState (.ok ()) zeroPriceFetch).price_data
        = [badZeroRecord]
    ∧ claimedRecordInvariant badZeroRecord = false := by decide

/-- Claim C7 amended: every record produced by the per-platform loop is
either a success record copying the structured-extraction output verbatim
(its price unconstrained — possibly null, zero or negative — with no error
field) or exactly the failure record with null price, empty title,
availability "Error extracting" and the exception text; the positive-price
invariant itself is not enforced. -/
theorem C7_record_shapes (s : InsuranceState)
    (fetch : String → String → ExternalResult ExtractedPrice)
    (r : PriceRecord)
    (h : r ∈ (extract_prices s (.ok ()) fetch).price_data) :
    ∃ pu, pu ∈ s.search_results ∧
      ((∃ d, fetch pu.1 pu.2 = ExternalResult.ok d
          ∧ r = { platform := pu.1, price := d.price, title := d.title,
                  url := pu.2, availability := d.availability, error := none })
       ∨ (∃ e, fetch pu.1 pu.2 = ExternalResult.exn e
          ∧ r = { platform := pu.1, price := none, title := "", url := pu.2,
                  availability := "Error extracting", error := some e })) := by
  cases hsr : s.search_results.isEmpty with
  | true => simp [extract_prices, hsr] at h
  | false =>
      simp only [extract_prices, hsr, Bool.false_eq_true, if_false,
        List.mem_map] at h
      obtain ⟨pu, hpu, hr⟩ := h
      refine ⟨pu, hpu, ?_⟩
      cases hf : fetch pu.1 pu.2 with
      | ok d => exact Or.inl ⟨d, rfl, by rw [← hr]; simp [extractRecord, hf]⟩
      | exn e => exact Or.inr ⟨e, rfl, by rw [← hr]; simp [extractRecord, hf]⟩

theorem C7_record_shapes_witness :
    ∃ pu, pu ∈ zeroPriceFetchState.search_results ∧
      ((∃ d, zeroPriceFetch pu.1 pu.2 = ExternalResult.ok d
          ∧ badZeroRecord
              = { platform := pu.1, price := d.price, title := d.title,
                  url := pu.2, availability := d.availability, error := none })
       ∨ (∃ e, zeroPriceFetch pu.1 pu.2 = ExternalResult.exn e
          ∧ badZeroRecord
              = { platform := pu.1, price := none, title := "", url := pu.2,
                  availability := "Error extracting", error := some e })) :=
  C7_record_shapes zeroPriceFetchState zeroPriceFetch badZeroRecord (by decide)

/-- Claim C9: on the mock data of src/test.py, the report statistics are
median 1299.99, mean 384997/300 (within 0.01 of 1283.32), min 1199.99,
max 1349.99 and confidence 10; the median of an even-count sample is the
average of the two middle values; and the computed statistics are submitted
verbatim to the rendering call. -/
theorem C9_mock_statistics (render : ReportStats → String) :
    median (validPrices mockPriceData) = 1299.99
    ∧ mean (validPrices mockPriceData) = 384997 / 300
    ∧ |mean (validPrices mockPriceData) - 1283.32| < 1 / 100
    ∧ listMin (validPrices mockPriceData) = 1199.99
    ∧ listMax (validPrices mockPriceData) = 1349.99
    ∧ median [(1 : ℚ), 3] = 2
    ∧ generate_report mockState render
        = { mockState with
              final_report := render mockStats
              confidence_score := some 10 } := by
  have hvp : validPrices mockPriceData = [(1299.99 : ℚ), 1199.99, 1349.99] := rfl
  have hmed : median (validPrices mockPriceData) = 1299.99 := by
    rw [hvp]; norm_num [median, sortQ, insertSorted]
  have hmean : mean (validPrices mockPriceData) = 384997 / 300 := by
    rw [hvp]; norm_num [mean]
  have hmin : listMin (validPrices mockPriceData) = 1199.99 := by
    rw [hvp]; norm_num [listMin, min_def]
  have hmax : listMax (validPrices mockPriceData) = 1349.99 := by
    rw [hvp]; norm_num [listMax, max_def]
  have hstats : reportStats mockPriceData = mockStats := by
    simp only [reportStats, mockStats, ReportStats.mk.injEq]
    refine ⟨hmed, hmean, hmin, hmax, ?_, trivial⟩
    rw [hvp]
    norm_num [min_def]
  have hrep : generate_report mockState render
      = { mockState with
            final_report := render (reportStats mockPriceData)
            confidence_score := some (reportStats mockPriceData).confidence } := rfl
  rw [hstats] at hrep
  refine ⟨hmed, hmean, ?_, hmin, hmax, ?_, hrep.trans rfl⟩
  · rw [hmean]
    have hsub : (384997 : ℚ) / 300 - 1283.32 = 1 / 300 := by norm_num
    rw [hsub, abs_of_pos (by norm_num : (0 : ℚ) < 1 / 300)]
    norm_num
  · norm_num [median, sortQ, insertSorted]

/-- Claim C10: an entry whose price is exactly 0.0 passes the
is-not-None filter, so its value is a member of the valid-price list (it
enters the statistics and the confidence count), while its breakdown line
takes the falsy branch and reads "No price found". -/
theorem C10_zero_price_counted_not_shown (pd : List PriceRecord)
    (r : PriceRecord) (s : InsuranceState) (render : ReportStats → String)
    (hmem : r ∈ pd) (hp : r.price = some 0) (hs : s.price_data = pd) :
    (0 : ℚ) ∈ validPrices pd
    ∧ breakdownLine r = "• " ++ pyTitle r.platform ++ ": No price found\n"
    ∧ (generate_report s render).confidence_score
        = some (min 10 (((validPrices pd).length : ℚ) / 3 * 8 + 2)) := by
  have h0 : (0 : ℚ) ∈ validPrices pd := List.mem_filterMap.mpr ⟨r, hmem, hp⟩
  refine ⟨h0, ?_, ?_⟩
  · simp [breakdownLine, hp]
  · have hne : validPrices pd ≠ [] := List.ne_nil_of_mem h0
    have hv : (validPrices pd).isEmpty = false := isEmpty_false_of_ne_nil hne
    simp [generate_report, reportStats, hs, hv, hne]

theorem C10_zero_price_counted_not_shown_witness :
    (0 : ℚ) ∈ validPrices zeroPriceState.price_data
    ∧ breakdownLine zeroWalmartRecord
        = "• " ++ pyTitle zeroWalmartRecord.platform ++ ": No price found\n"
    ∧ (generate_report zeroPriceState (fun _ => "")).confidence_score
        = some (min 10
            (((validPrices zeroPriceState.price_data).length : ℚ) / 3 * 8 + 2)) :=
  C10_zero_price_counted_not_shown zeroPriceState.price_data zeroWalmartRecord
    zeroPriceState (fun _ => "") (by decide) (by decide) rfl

end PriceShield
